import Mathlib

/-! Overview.
Verification development for the HR Salary Prediction Dashboard
(src/dashboard/app1.py): a single-script Streamlit application that loads a
serialized regression model and a spreadsheet dataset, collects two slider
inputs (age, years of experience), and on a button press renders a salary
prediction, two scatter plots with an overlay point, four summary metrics
and a dataset-overview panel.

The script is embedded shallowly:
* numeric values are exact rationals; the one place where the script can
  divide by zero (the `diff_percent` metric, line 188) is embedded with an
  explicit IEEE-style extended value type `FloatVal` so that the unguarded
  division-by-zero behaviour of numpy scalars (±inf / nan, no exception) is
  captured;
* Python format strings (`f"${x:,.2f}"`, `f"{x:+.1f}%"`) become string
  functions over rationals with round-half-even;
* the render cycle becomes a pure function producing a `ViewModel`;
* the opaque model artifact (`gradient_boosting_model.pkl`) and the
  framework-provided caching decorators are modelled from the spec, as
  noted on their definitions.
-/

namespace SalaryDash

/-! Section: IEEE-style extended numeric values.

`diff_percent` (app1.py line 188) is computed on numpy float64 scalars:
`((prediction - mean) / mean) * 100`.  When `mean = 0` numpy produces
±inf or nan (with a warning) rather than raising.  `FloatVal` models a
float64 as an exact rational, positive/negative infinity, or nan
(rounding error is not modelled; all claim instances are exact). -/

inductive FloatVal where
  | fin : ℚ → FloatVal
  | posInf : FloatVal
  | negInf : FloatVal
  | nan : FloatVal
deriving DecidableEq, Repr

/-- IEEE subtraction on extended values. -/
def FloatVal.sub : FloatVal → FloatVal → FloatVal
  | .fin a, .fin b => .fin (a - b)
  | .nan, _ => .nan
  | _, .nan => .nan
  | .posInf, .posInf => .nan
  | .negInf, .negInf => .nan
  | .posInf, _ => .posInf
  | .negInf, _ => .negInf
  | .fin _, .posInf => .negInf
  | .fin _, .negInf => .posInf

/-- IEEE division on extended values; finite / 0 gives ±inf (or nan for 0/0),
as numpy float64 division does (negative zero is not modelled). -/
def FloatVal.div : FloatVal → FloatVal → FloatVal
  | .nan, _ => .nan
  | _, .nan => .nan
  | .fin a, .fin b =>
      if b = 0 then (if 0 < a then .posInf else if a < 0 then .negInf else .nan)
      else .fin (a / b)
  | .fin _, .posInf => .fin 0
  | .fin _, .negInf => .fin 0
  | .posInf, .posInf => .nan
  | .posInf, .negInf => .nan
  | .negInf, .posInf => .nan
  | .negInf, .negInf => .nan
  | .posInf, .fin b => if 0 ≤ b then .posInf else .negInf
  | .negInf, .fin b => if 0 ≤ b then .negInf else .posInf

/-- IEEE multiplication on extended values. -/
def FloatVal.mul : FloatVal → FloatVal → FloatVal
  | .nan, _ => .nan
  | _, .nan => .nan
  | .fin a, .fin b => .fin (a * b)
  | .posInf, .posInf => .posInf
  | .negInf, .negInf => .posInf
  | .posInf, .negInf => .negInf
  | .negInf, .posInf => .negInf
  | .posInf, .fin b => if 0 < b then .posInf else if b < 0 then .negInf else .nan
  | .fin b, .posInf => if 0 < b then .posInf else if b < 0 then .negInf else .nan
  | .negInf, .fin b => if 0 < b then .negInf else if b < 0 then .posInf else .nan
  | .fin b, .negInf => if 0 < b then .negInf else if b < 0 then .posInf else .nan

/-- app1.py line 188:
`diff_percent = ((prediction - data['Current Salary'].mean()) / data['Current Salary'].mean()) * 100`,
with no guard against a zero mean. -/
def diff_percent (p mean : FloatVal) : FloatVal :=
  ((p.sub mean).div mean).mul (.fin 100)

/-! Section: Python numeric formatting. -/

/-- Round to the nearest integer, ties to even, as Python float formatting
does on the decimal expansion. -/
def roundHalfEven (x : ℚ) : ℤ :=
  let f := ⌊x⌋
  let r := x - (f : ℚ)
  if r < 1 / 2 then f
  else if 1 / 2 < r then f + 1
  else if f % 2 = 0 then f else f + 1

/-- Insert thousands separators into a reversed digit list
(every three digits, counted from the least significant end). -/
def commaRev : List Char → List Char
  | a :: b :: c :: d :: rest => a :: b :: c :: ',' :: commaRev (d :: rest)
  | l => l

/-- Decimal rendering of a natural number with thousands separators. -/
def withCommas (n : ℕ) : String :=
  String.mk (commaRev (Nat.repr n).data.reverse).reverse

/-- Two-digit zero-padded rendering of a number below 100 (the cents). -/
def twoDigits (n : ℕ) : String :=
  if n < 10 then "0" ++ Nat.repr n else Nat.repr n

/-- The digits of a whole number of cents, grouped and with a decimal
point before the last two digits: `123456780` becomes `"1,234,567.80"`. -/
def centsString (cents : ℕ) : String :=
  withCommas (cents / 100) ++ "." ++ twoDigits (cents % 100)

/-- Python `f"${x:,.2f}"` (app1.py lines 119, 182, 184, 186): dollar sign,
thousands separators, exactly two decimal places, round-half-even. -/
def formatCurrency (x : ℚ) : String :=
  let sign := if x < 0 then "-" else ""
  "$" ++ sign ++ centsString (roundHalfEven (|x| * 100)).toNat

/-- The digits of a number of tenths with a decimal point before the last
digit: `462` becomes `"46.2"`. -/
def tenthsString (tenths : ℕ) : String :=
  Nat.repr (tenths / 10) ++ "." ++ Nat.repr (tenths % 10)

/-- Python `f"{x:+.1f}"` on a finite value: explicit sign, exactly one
decimal place, round-half-even (rounding the magnitude, which agrees with
rounding the signed value since ties-to-even is symmetric). -/
def signedOneDecimal (x : ℚ) : String :=
  let sign := if x < 0 then "-" else "+"
  sign ++ tenthsString (roundHalfEven (|x| * 10)).toNat

/-- Python `f"{diff_percent:+.1f}%"` (app1.py line 189), extended to the
values a float64 can take: `f"{inf:+.1f}"` is `"+inf"`, `f"{-inf:+.1f}"` is
`"-inf"`, `f"{nan:+.1f}"` is `"+nan"`. -/
def fmtVsMean : FloatVal → String
  | .fin q => signedOneDecimal q ++ "%"
  | .posInf => "+inf%"
  | .negInf => "-inf%"
  | .nan => "+nan%"

/-! Section: Model and dataset. -/

/-- Modelled from the spec: the serialized artifact
`gradient_boosting_model.pkl` is not part of the source tree; per the spec
the Model is "an opaque, pre-fitted regression function mapping a
2-dimensional numeric feature vector `[age, experience]` to a scalar salary
prediction". -/
structure Model where
  f : ℚ → ℚ → ℚ

/-- One output of the regressor: defined only on a two-feature row
`[age, experience]` (a malformed row is a shape error in sklearn). -/
def Model.predictRow (m : Model) : List ℚ → Option ℚ
  | [age, experience] => some (m.f age experience)
  | _ => none

/-- Batch predict: one scalar output per input row, as
`model.predict(input_data)` returns one element per row of `input_data`. -/
def Model.predict (m : Model) (inputs : List (List ℚ)) : Option (List ℚ) :=
  inputs.mapM m.predictRow

/-- app1.py line 110: `input_data = np.array([[age, experience]])` —
a single row, age first, experience second. -/
def input_data (age experience : ℤ) : List (List ℚ) :=
  [[(age : ℚ), (experience : ℚ)]]

/-- app1.py line 111: `prediction = model.predict(input_data)[0]` —
the first (only) element of the model output. -/
def prediction (m : Model) (age experience : ℤ) : Option ℚ :=
  (m.predict (input_data age experience)).bind List.head?

/-- One record of `salary_dataset.xlsx`, with the columns the script uses:
`Age`, `Year of Experience`, `Current Salary`. -/
structure Row where
  age : ℚ
  experience : ℚ
  salary : ℚ
deriving DecidableEq, Repr

/-- The tabular dataset, in file order. -/
abbrev Dataset := List Row

/-- `data['Current Salary'].mean()` (app1.py lines 182, 188). -/
def meanSalary (d : Dataset) : ℚ :=
  (d.map Row.salary).sum / (d.length : ℚ)

/-- `data['Current Salary'].max()` (app1.py line 184); the empty-dataset
value is irrelevant to every use below. -/
def maxSalary (d : Dataset) : ℚ :=
  ((d.map Row.salary).max?).getD 0

/-! Section: The view model produced by one render cycle. -/

/-- The prediction card (app1.py lines 114-122): the raw predicted scalar,
its currency-formatted text `f"${prediction:,.2f}"`, and the originating
age and experience. -/
structure PredCard where
  predictionVal : ℚ
  text : String
  age : ℤ
  experience : ℤ
deriving DecidableEq, Repr

/-- One scatter plot with its highlighted overlay point
(app1.py lines 133-152 and 157-175). -/
structure Chart where
  xs : List ℚ
  ys : List ℚ
  xTitle : String
  yTitle : String
  overlayX : ℚ
  overlayY : ℚ
deriving DecidableEq, Repr

/-- The four Quick Statistics metrics (app1.py lines 179-189), with both
the raw values and the rendered texts. -/
structure SummaryMetrics where
  meanVal : ℚ
  maxVal : ℚ
  predVal : ℚ
  diff : FloatVal
  meanText : String
  maxText : String
  predText : String
  vsMeanText : String
deriving DecidableEq, Repr

/-- The Dataset Overview expander (app1.py lines 195-214): head rows,
descriptive statistics, and the shape/dtype/null-count summary. -/
structure Overview where
  headRows : List Row
  statMeanSalary : ℚ
  statMaxSalary : ℚ
  totalRecords : ℕ
  numColumns : ℕ
  missingValues : ℕ
deriving DecidableEq, Repr

/-- app1.py lines 195-214: `data.head(10)`, `data.describe()` (of which the
salary mean and max are recorded), `len(data)`, `len(data.columns)`,
`data.isnull().sum().sum()` (no nulls exist in the `Row` model). -/
def mkOverview (d : Dataset) : Overview :=
  { headRows := d.take 10
    statMeanSalary := meanSalary d
    statMaxSalary := maxSalary d
    totalRecords := d.length
    numColumns := 3
    missingValues := 0 }

/-- Everything the main content area renders in one cycle. -/
structure ViewModel where
  predictionCard : Option PredCard
  charts : List Chart
  metrics : Option SummaryMetrics
  overview : Overview
deriving DecidableEq, Repr

/-- Scatter plot A (app1.py lines 133-152): x = `Year of Experience`,
y = `Current Salary`, overlay point `(experience, prediction)`. -/
def mkFig1 (d : Dataset) (experience : ℤ) (p : ℚ) : Chart :=
  { xs := d.map Row.experience
    ys := d.map Row.salary
    xTitle := "Years of Experience"
    yTitle := "Salary ($)"
    overlayX := (experience : ℚ)
    overlayY := p }

/-- Scatter plot B (app1.py lines 157-175): x = `Age`,
y = `Current Salary`, overlay point `(age, prediction)`. -/
def mkFig2 (d : Dataset) (age : ℤ) (p : ℚ) : Chart :=
  { xs := d.map Row.age
    ys := d.map Row.salary
    xTitle := "Age"
    yTitle := "Salary ($)"
    overlayX := (age : ℚ)
    overlayY := p }

/-- The Quick Statistics section (app1.py lines 179-189), computed from
the dataset and the one prediction scalar of this cycle. -/
def mkMetrics (d : Dataset) (p : ℚ) : SummaryMetrics :=
  let mean := meanSalary d
  let diff := diff_percent (.fin p) (.fin mean)
  { meanVal := mean
    maxVal := maxSalary d
    predVal := p
    diff := diff
    meanText := formatCurrency mean
    maxText := formatCurrency (maxSalary d)
    predText := formatCurrency p
    vsMeanText := fmtVsMean diff }

/-- app1.py lines 108-214: the main content area of one render cycle.
If `predict_btn` is true the prediction is computed once (line 111) and
the card, both figures and the metrics are built from it; otherwise only
the Dataset Overview section is rendered.  `none` would indicate a shape
error in `model.predict`, which never occurs for the script's own
`input_data`. -/
def render (model : Model) (data : Dataset) (age experience : ℤ)
    (predict_btn : Bool) : Option ViewModel :=
  if predict_btn then
    match prediction model age experience with
    | some p => some
        { predictionCard := some
            { predictionVal := p
              text := formatCurrency p
              age := age
              experience := experience }
          charts := [mkFig1 data experience p, mkFig2 data age p]
          metrics := some (mkMetrics data p)
          overview := mkOverview data }
    | none => none
  else
    some
      { predictionCard := none
        charts := []
        metrics := none
        overview := mkOverview data }

/-! Section: Resource loading and the full cycle. -/

/-- app1.py lines 58-63: the `try`/`except` around `load_model()` /
`load_data()`; on any failure the script calls
`st.error(f"❌ Error loading resources: {e}")` and `st.stop()`, which
aborts the rest of the render. -/
def loadResources (lm : Except String Model) (ld : Except String Dataset) :
    Except String (Model × Dataset) := do
  let m ← lm
  let d ← ld
  pure (m, d)

/-- One full top-to-bottom execution of the script: load the resources,
then render; a load failure yields the user-visible error message and no
view model (the `Except.error` branch is `st.error` + `st.stop`). -/
def appRender (lm : Except String Model) (ld : Except String Dataset)
    (age experience : ℤ) (predict_btn : Bool) :
    Except String (Option ViewModel) :=
  match loadResources lm ld with
  | .error e => .error ("❌ Error loading resources: " ++ e)
  | .ok (m, d) => .ok (render m d age experience predict_btn)

/-! Section: Process-wide resource cache. -/

/-- The process-wide cache for one resource: the cached object, if any,
and how many file reads have happened. -/
structure CacheState (α : Type) where
  cached : Option α
  fileReads : ℕ
deriving DecidableEq, Repr

/-- Modelled from the spec: the `@st.cache_resource` / `@st.cache_data`
decorators (app1.py lines 50, 54) are framework code outside the source
tree; per the spec the loaders are "idempotent for the lifetime of the
process — first call performs file I/O and deserialization; subsequent
calls return the same cached in-memory object without re-reading the
file". -/
def cachedLoad {α : Type} (readFile : Unit → α) (s : CacheState α) :
    α × CacheState α :=
  match s.cached with
  | some v => (v, s)
  | none =>
      let v := readFile ()
      (v, { cached := some v, fileReads := s.fileReads + 1 })

/-- app1.py lines 50-52: `load_model`, `joblib.load` behind
`@st.cache_resource`. -/
def load_model (readFile : Unit → Model) :
    CacheState Model → Model × CacheState Model :=
  cachedLoad readFile

/-- app1.py lines 54-56: `load_data`, `pd.read_excel` behind
`@st.cache_data`. -/
def load_data (readFile : Unit → Dataset) :
    CacheState Dataset → Dataset × CacheState Dataset :=
  cachedLoad readFile

/-! Section: Input collector. -/

/-- One bounded integer slider, with the keyword arguments of
`st.slider` (app1.py lines 90-93). -/
structure Slider where
  minValue : ℤ
  maxValue : ℤ
  value : ℤ
deriving DecidableEq, Repr

/-- `st.slider("**Age**", min_value=18, max_value=65, value=30)`. -/
def ageSlider : Slider := { minValue := 18, maxValue := 65, value := 30 }

/-- `st.slider("**Years of Experience**", min_value=0, max_value=50, value=5)`. -/
def experienceSlider : Slider := { minValue := 0, maxValue := 50, value := 5 }

/-- Modelled from the spec: the slider widget itself is framework code;
per the spec there is "no validation beyond range clamping performed by
the controls themselves; out-of-range input is structurally impossible
given slider semantics". -/
def Slider.collect (s : Slider) (raw : ℤ) : ℤ :=
  max s.minValue (min s.maxValue raw)

/-- The InputVector `(age, experience)` produced by the two sliders. -/
def collectInput (rawAge rawExperience : ℤ) : ℤ × ℤ :=
  (ageSlider.collect rawAge, experienceSlider.collect rawExperience)

/-! Section: Concrete fixtures from the spec's testable properties. -/

/-- The spec's stub model: `10000 + 2000*experience + 500*age`. -/
def stubModel : Model :=
  { f := fun age experience => 10000 + 2000 * experience + 500 * age }

/-- The spec's two-row synthetic dataset:
`[{Age:25,Exp:2,Salary:40000},{Age:40,Exp:15,Salary:90000}]`. -/
def twoRowDataset : Dataset :=
  [{ age := 25, experience := 2, salary := 40000 },
   { age := 40, experience := 15, salary := 90000 }]

/-- A dataset whose mean salary is zero, for the division-by-zero edge
case. -/
def zeroMeanDataset : Dataset :=
  [{ age := 25, experience := 2, salary := 0 },
   { age := 40, experience := 15, salary := 0 }]


/-! Section: Helper lemmas. -/

theorem roundHalfEven_intCast (n : ℤ) : roundHalfEven ((n : ℚ)) = n := by
  simp [roundHalfEven]

theorem roundHalfEven_natCast (c : ℕ) : roundHalfEven ((c : ℚ)) = (c : ℤ) := by
  rw [← Int.cast_natCast]
  exact roundHalfEven_intCast _

theorem roundHalfEven_eq_floor (x : ℚ) (f : ℤ) (h1 : (f : ℚ) ≤ x)
    (h2 : x < (f : ℚ) + 1 / 2) : roundHalfEven x = f := by
  have hf : ⌊x⌋ = f := Int.floor_eq_iff.mpr ⟨h1, by linarith⟩
  simp only [roundHalfEven, hf]
  rw [if_pos (by linarith)]

theorem roundHalfEven_eq_ceil (x : ℚ) (f : ℤ) (h1 : (f : ℚ) + 1 / 2 < x)
    (h2 : x < (f : ℚ) + 1) : roundHalfEven x = f + 1 := by
  have hf : ⌊x⌋ = f := Int.floor_eq_iff.mpr ⟨by linarith, by linarith⟩
  simp only [roundHalfEven, hf]
  rw [if_neg (by linarith), if_pos (by linarith)]

theorem formatCurrency_of_abs (x : ℚ) (c : ℕ) (h : |x| * 100 = (c : ℚ)) :
    formatCurrency x = "$" ++ (if x < 0 then "-" else "") ++ centsString c := by
  simp only [formatCurrency, h, roundHalfEven_natCast, Int.toNat_natCast]

theorem signedOneDecimal_of_round (x : ℚ) (t : ℕ)
    (h : roundHalfEven (|x| * 10) = (t : ℤ)) :
    signedOneDecimal x = (if x < 0 then "-" else "+") ++ tenthsString t := by
  simp only [signedOneDecimal, h, Int.toNat_natCast]

theorem FloatVal.sub_fin (a b : ℚ) :
    FloatVal.sub (.fin a) (.fin b) = .fin (a - b) := rfl

theorem FloatVal.mul_fin (a b : ℚ) :
    FloatVal.mul (.fin a) (.fin b) = .fin (a * b) := rfl

theorem FloatVal.div_fin (a b : ℚ) (h : b ≠ 0) :
    FloatVal.div (.fin a) (.fin b) = .fin (a / b) := by
  simp [FloatVal.div, h]

theorem diff_percent_fin (p mean : ℚ) (h : mean ≠ 0) :
    diff_percent (.fin p) (.fin mean) = .fin ((p - mean) / mean * 100) := by
  rw [diff_percent, FloatVal.sub_fin, FloatVal.div_fin _ _ h, FloatVal.mul_fin]

theorem diff_percent_zero_mean (p : ℚ) :
    diff_percent (.fin p) (.fin 0) =
      (if 0 < p then .posInf else if p < 0 then .negInf else .nan) := by
  have hsub : FloatVal.sub (.fin p) (.fin 0) = .fin p := by
    rw [FloatVal.sub_fin, sub_zero]
  rw [diff_percent, hsub]
  rcases lt_trichotomy p 0 with h | h | h
  · rw [if_neg (by linarith), if_pos h]
    simp [FloatVal.div, FloatVal.mul, h, not_lt_of_lt h, ne_of_lt h]
  · subst h
    simp [FloatVal.div, FloatVal.mul]
  · rw [if_pos h]
    simp [FloatVal.div, FloatVal.mul, h]

theorem prediction_eq (m : Model) (age experience : ℤ) :
    prediction m age experience = some (m.f (age : ℚ) (experience : ℚ)) := rfl

theorem meanSalary_twoRow : meanSalary twoRowDataset = 65000 := by
  simp [meanSalary, twoRowDataset]
  norm_num

theorem meanSalary_zeroMean : meanSalary zeroMeanDataset = 0 := by
  simp [meanSalary, zeroMeanDataset]

theorem stubModel_at_30_5 : stubModel.f 30 5 = 35000 := by
  norm_num [stubModel]


/-! Section: Claim theorems. -/

/-- C1: when the trigger is asserted the prediction is obtained by invoking
the loaded model on the single two-element input row `[[age, experience]]`
(age first, experience second) and taking the first (only) element of the
model's output; for every valid bounded `(age, experience)` this yields
exactly one (finite, rational) scalar. -/
theorem claim_C1_predict_single_scalar (model : Model) (age experience : ℤ)
    (h1 : 18 ≤ age) (h2 : age ≤ 65) (h3 : 0 ≤ experience) (h4 : experience ≤ 50) :
    model.predict (input_data age experience) =
      some [model.f (age : ℚ) (experience : ℚ)] ∧
    prediction model age experience = some (model.f (age : ℚ) (experience : ℚ)) :=
  ⟨rfl, rfl⟩

/-- Witness for C1 at the spec's stub model, age 30, experience 5. -/
theorem claim_C1_witness :
    (18 : ℤ) ≤ 30 ∧ (30 : ℤ) ≤ 65 ∧ (0 : ℤ) ≤ 5 ∧ (5 : ℤ) ≤ 50 ∧
    prediction stubModel 30 5 = some 35000 := by
  refine ⟨by norm_num, by norm_num, by norm_num, by norm_num, ?_⟩
  rw [(claim_C1_predict_single_scalar stubModel 30 5 (by norm_num) (by norm_num)
    (by norm_num) (by norm_num)).2]
  norm_num [stubModel]

/-- C2: the percentage-deviation metric equals
`(prediction - mean) / mean * 100` (whenever the mean is nonzero so the
real-number formula is defined), and it is rendered with an explicit sign
and exactly one decimal place; for mean 50000 and prediction 60000 the
rendered value is `+20.0%`. -/
theorem claim_C2_diff_percent_formula :
    (∀ p mean : ℚ, mean ≠ 0 →
      diff_percent (.fin p) (.fin mean) = .fin ((p - mean) / mean * 100)) ∧
    fmtVsMean (diff_percent (.fin 60000) (.fin 50000)) = "+20.0%" := by
  refine ⟨fun p mean h => diff_percent_fin p mean h, ?_⟩
  rw [diff_percent_fin 60000 50000 (by norm_num)]
  have hq : ((60000 : ℚ) - 50000) / 50000 * 100 = 20 := by norm_num
  rw [hq]
  show signedOneDecimal 20 ++ "%" = "+20.0%"
  have ht : roundHalfEven (|(20 : ℚ)| * 10) = ((200 : ℕ) : ℤ) := by
    rw [abs_of_nonneg (by norm_num : (0:ℚ) ≤ 20)]
    rw [show (20 : ℚ) * 10 = ((200 : ℕ) : ℚ) by norm_num]
    exact roundHalfEven_natCast 200
  rw [signedOneDecimal_of_round 20 200 ht, if_neg (by norm_num : ¬ (20:ℚ) < 0)]
  rfl

/-- Witness for C2 at mean 50000, prediction 60000. -/
theorem claim_C2_witness :
    (50000 : ℚ) ≠ 0 ∧
    diff_percent (.fin 60000) (.fin 50000) =
      .fin ((60000 - 50000) / 50000 * 100) :=
  ⟨by norm_num, claim_C2_diff_percent_formula.1 60000 50000 (by norm_num)⟩

/-- C3 counterexample: at mean 0 the unguarded computation of app1.py line
188 yields positive infinity — rendered `"+inf%"` — and not a designated
not-applicable fallback; the full render pipeline on a dataset with zero
mean salary puts `"+inf%"` in the Vs Mean metric. -/
theorem claim_C3_counterexample :
    diff_percent (.fin 60000) (.fin 0) = .posInf ∧
    fmtVsMean (diff_percent (.fin 60000) (.fin 0)) = "+inf%" ∧
    ((render stubModel zeroMeanDataset 30 5 true).bind
        (fun vm => vm.metrics.map SummaryMetrics.vsMeanText)) = some "+inf%" := by
  have h1 : diff_percent (.fin 60000) (.fin 0) = .posInf := by
    rw [diff_percent_zero_mean, if_pos (by norm_num : (0:ℚ) < 60000)]
  refine ⟨h1, by rw [h1]; rfl, ?_⟩
  have hrender : render stubModel zeroMeanDataset 30 5 true = some
      { predictionCard := some
          { predictionVal := stubModel.f 30 5, text := formatCurrency (stubModel.f 30 5)
            age := 30, experience := 5 }
        charts := [mkFig1 zeroMeanDataset 5 (stubModel.f 30 5),
                   mkFig2 zeroMeanDataset 30 (stubModel.f 30 5)]
        metrics := some (mkMetrics zeroMeanDataset (stubModel.f 30 5))
        overview := mkOverview zeroMeanDataset } := rfl
  rw [hrender]
  show some ((mkMetrics zeroMeanDataset (stubModel.f 30 5)).vsMeanText) = some "+inf%"
  simp only [mkMetrics, meanSalary_zeroMean]
  rw [diff_percent_zero_mean, if_pos (by rw [stubModel_at_30_5]; norm_num)]
  rfl

/-- C3 amended: with a zero dataset mean the percentage-deviation step of
app1.py line 188 does not crash in the embedding of numpy float64
semantics, but it yields no designated fallback: it produces `+inf` for a
positive prediction, `-inf` for a negative one and `nan` for zero,
rendered `"+inf%"`, `"-inf%"` and `"+nan%"` respectively. -/
theorem claim_C3_amended (p : ℚ) :
    diff_percent (.fin p) (.fin 0) =
      (if 0 < p then .posInf else if p < 0 then .negInf else .nan) ∧
    fmtVsMean (diff_percent (.fin p) (.fin 0)) =
      (if 0 < p then "+inf%" else if p < 0 then "-inf%" else "+nan%") := by
  refine ⟨diff_percent_zero_mean p, ?_⟩
  rw [diff_percent_zero_mean p]
  rcases lt_trichotomy p 0 with h | h | h
  · rw [if_neg (by linarith), if_pos h, if_neg (by linarith), if_pos h]
    rfl
  · subst h
    norm_num
    rfl
  · rw [if_pos h, if_pos h]
    rfl


/-- C4: calling `load_model` twice within one process returns the identical
cached Model, and calling `load_data` twice returns the identical cached
Dataset, with no second file read on either second call (the file-read
counter and the whole cache state are unchanged by the second call). -/
theorem claim_C4_loaders_idempotent :
    (∀ (readFile : Unit → Model) (s : CacheState Model),
      (load_model readFile (load_model readFile s).2).1 = (load_model readFile s).1 ∧
      (load_model readFile (load_model readFile s).2).2.fileReads =
        (load_model readFile s).2.fileReads ∧
      (load_model readFile (load_model readFile s).2).2 = (load_model readFile s).2) ∧
    (∀ (readFile : Unit → Dataset) (s : CacheState Dataset),
      (load_data readFile (load_data readFile s).2).1 = (load_data readFile s).1 ∧
      (load_data readFile (load_data readFile s).2).2.fileReads =
        (load_data readFile s).2.fileReads ∧
      (load_data readFile (load_data readFile s).2).2 = (load_data readFile s).2) := by
  constructor
  · intro readFile s
    cases hs : s.cached <;> simp [load_model, cachedLoad, hs]
  · intro readFile s
    cases hs : s.cached <;> simp [load_data, cachedLoad, hs]

/-- C5: with the trigger not asserted a render cycle produces only the
dataset-overview panel — no prediction card, no charts, no summary
metrics; with the trigger asserted it produces the prediction card, both
scatter plots, the four summary metrics and the same overview panel. -/
theorem claim_C5_render_gating (model : Model) (data : Dataset)
    (age experience : ℤ) :
    render model data age experience false =
      some { predictionCard := none, charts := [], metrics := none
             overview := mkOverview data } ∧
    ∃ vm, render model data age experience true = some vm ∧
      vm.predictionCard.isSome = true ∧ vm.charts.length = 2 ∧
      vm.metrics.isSome = true ∧ vm.overview = mkOverview data := by
  refine ⟨rfl, ?_⟩
  exact ⟨_, rfl, rfl, rfl, rfl, rfl⟩

/-- C6: a failure while loading the model or the dataset surfaces the
user-visible error message of app1.py line 62 and aborts the render — the
cycle produces an error, never a view model, and there is no retry or
fallback load. -/
theorem claim_C6_load_failure_fatal :
    (∀ (e : String) (ld : Except String Dataset) (age experience : ℤ)
        (predict_btn : Bool),
      appRender (.error e) ld age experience predict_btn =
        .error ("❌ Error loading resources: " ++ e)) ∧
    (∀ (e : String) (m : Model) (age experience : ℤ) (predict_btn : Bool),
      appRender (.ok m) (.error e) age experience predict_btn =
        .error ("❌ Error loading resources: " ++ e)) := by
  constructor
  · intro e ld age experience predict_btn
    cases ld <;> rfl
  · intro e m age experience predict_btn
    rfl

/-- C7: currency values are rendered with a dollar sign, thousands
separators and exactly two decimal places — the format function sends
`1234567.8` to `"$1,234,567.80"`, and every currency text in a triggered
render cycle (prediction card, mean, max and predicted-salary metrics) is
produced by that function from the corresponding raw value. -/
theorem claim_C7_currency_format :
    formatCurrency (1234567.8 : ℚ) = "$1,234,567.80" ∧
    ∀ (model : Model) (data : Dataset) (age experience : ℤ),
      ∃ vm card met, render model data age experience true = some vm ∧
        vm.predictionCard = some card ∧ vm.metrics = some met ∧
        card.text = formatCurrency card.predictionVal ∧
        met.meanText = formatCurrency met.meanVal ∧
        met.maxText = formatCurrency met.maxVal ∧
        met.predText = formatCurrency met.predVal := by
  constructor
  · have habs : |(1234567.8 : ℚ)| * 100 = ((123456780 : ℕ) : ℚ) := by
      rw [abs_of_nonneg (by norm_num : (0:ℚ) ≤ 1234567.8)]
      push_cast
      norm_num
    rw [formatCurrency_of_abs _ _ habs, if_neg (by norm_num : ¬ (1234567.8:ℚ) < 0)]
    rfl
  · intro model data age experience
    exact ⟨_, _, _, rfl, rfl, rfl, rfl, rfl, rfl, rfl⟩

/-- C8: end-to-end on the spec's two-row dataset with the stub model
`10000 + 2000*experience + 500*age`, age 30 and experience 5: the
prediction is 35000, the prediction card shows `"$35,000.00"`, and the
Vs Mean metric equals `(35000 - 65000) / 65000 * 100`, rendered
`"-46.2%"`. -/
theorem claim_C8_end_to_end :
    prediction stubModel 30 5 = some 35000 ∧
    ((render stubModel twoRowDataset 30 5 true).bind
        (fun vm => vm.predictionCard.map PredCard.text)) = some "$35,000.00" ∧
    ((render stubModel twoRowDataset 30 5 true).bind
        (fun vm => vm.metrics.map SummaryMetrics.diff)) =
      some (.fin ((35000 - 65000) / 65000 * 100)) ∧
    ((render stubModel twoRowDataset 30 5 true).bind
        (fun vm => vm.metrics.map SummaryMetrics.vsMeanText)) = some "-46.2%" := by
  have hp : prediction stubModel 30 5 = some 35000 := by
    rw [prediction_eq]
    norm_num [stubModel]
  have hdiff : diff_percent (.fin (stubModel.f 30 5)) (.fin (meanSalary twoRowDataset)) =
      .fin ((35000 - 65000) / 65000 * 100) := by
    rw [stubModel_at_30_5, meanSalary_twoRow,
      diff_percent_fin 35000 65000 (by norm_num)]
  have hrender : render stubModel twoRowDataset 30 5 true = some
      { predictionCard := some
          { predictionVal := stubModel.f 30 5, text := formatCurrency (stubModel.f 30 5)
            age := 30, experience := 5 }
        charts := [mkFig1 twoRowDataset 5 (stubModel.f 30 5),
                   mkFig2 twoRowDataset 30 (stubModel.f 30 5)]
        metrics := some (mkMetrics twoRowDataset (stubModel.f 30 5))
        overview := mkOverview twoRowDataset } := rfl
  refine ⟨hp, ?_, ?_, ?_⟩
  · rw [hrender]
    show some (formatCurrency (stubModel.f 30 5)) = some "$35,000.00"
    rw [stubModel_at_30_5]
    have habs : |(35000 : ℚ)| * 100 = ((3500000 : ℕ) : ℚ) := by
      rw [abs_of_nonneg (by norm_num : (0:ℚ) ≤ 35000)]
      push_cast
      norm_num
    rw [formatCurrency_of_abs _ _ habs, if_neg (by norm_num : ¬ (35000:ℚ) < 0)]
    rfl
  · rw [hrender]
    show some ((mkMetrics twoRowDataset (stubModel.f 30 5)).diff) = _
    simp only [mkMetrics]
    rw [hdiff]
  · rw [hrender]
    show some ((mkMetrics twoRowDataset (stubModel.f 30 5)).vsMeanText) = _
    simp only [mkMetrics]
    rw [hdiff]
    have hq : ((35000 : ℚ) - 65000) / 65000 * 100 = -600 / 13 := by norm_num
    rw [hq]
    show some (signedOneDecimal (-600 / 13 : ℚ) ++ "%") = some "-46.2%"
    have ht : roundHalfEven (|(-600 / 13 : ℚ)| * 10) = ((462 : ℕ) : ℤ) := by
      rw [abs_of_nonpos (by norm_num : (-600 / 13 : ℚ) ≤ 0)]
      rw [show (-(-600 / 13) : ℚ) * 10 = 6000 / 13 by norm_num]
      rw [roundHalfEven_eq_ceil (6000 / 13) 461 (by norm_num) (by norm_num)]
      norm_num
    rw [signedOneDecimal_of_round _ _ ht, if_pos (by norm_num : (-600 / 13 : ℚ) < 0)]
    rfl

/-- C9: the age slider accepts integers in [18, 65] with default 30, the
experience slider accepts integers in [0, 50] with default 5, and every
InputVector produced by the collector lies within these bounds. -/
theorem claim_C9_slider_bounds :
    ageSlider.minValue = 18 ∧ ageSlider.maxValue = 65 ∧ ageSlider.value = 30 ∧
    experienceSlider.minValue = 0 ∧ experienceSlider.maxValue = 50 ∧
    experienceSlider.value = 5 ∧
    ∀ rawAge rawExperience : ℤ,
      18 ≤ (collectInput rawAge rawExperience).1 ∧
      (collectInput rawAge rawExperience).1 ≤ 65 ∧
      0 ≤ (collectInput rawAge rawExperience).2 ∧
      (collectInput rawAge rawExperience).2 ≤ 50 := by
  refine ⟨rfl, rfl, rfl, rfl, rfl, rfl, ?_⟩
  intro rawAge rawExperience
  simp only [collectInput, Slider.collect, ageSlider, experienceSlider]
  omega

/-- C10: in a triggered render cycle a single prediction scalar feeds every
display site — the prediction card value, the y-coordinate of the overlay
point of both scatter plots, the Predicted Salary metric and the numerator
of the percentage-deviation computation are all the same value, the one
returned by the model invocation. -/
theorem claim_C10_single_prediction_value (model : Model) (data : Dataset)
    (age experience : ℤ) :
    ∃ vm card met, render model data age experience true = some vm ∧
      vm.predictionCard = some card ∧ vm.metrics = some met ∧
      prediction model age experience = some card.predictionVal ∧
      vm.charts.map Chart.overlayY = [card.predictionVal, card.predictionVal] ∧
      met.predVal = card.predictionVal ∧
      met.diff = diff_percent (.fin card.predictionVal) (.fin (meanSalary data)) ∧
      card.text = formatCurrency card.predictionVal ∧
      met.predText = formatCurrency card.predictionVal :=
  ⟨_, _, _, rfl, rfl, rfl, rfl, rfl, rfl, rfl, rfl, rfl⟩

end SalaryDash
